import Mathlib

/-!
Verification development for the technical-update-briefings deck pipeline.

The definitions below are a shallow embedding of the Python sources:
generate_deck.py (src/unnamed/part_023) and
tools/ppt_working/parsers/roadmap_html.py (src/tools/ppt_working/needed_parsers.md).
Python floats are modelled as rationals, Python strings as Lean strings with
all operations implemented over their character lists (so that everything
kernel-evaluates), dictionaries as records of Option String fields, the
BeautifulSoup tree as an inductive Html type, and Python exceptions as the
error side of Except.  Unicode-sensitive primitives (lower-casing, the
whitespace class of regex \s and str.strip) are modelled on the ASCII range
plus NBSP, which covers every string the sources and the fixtures contain.
-/

/- ===== Python-style string primitives ===== -/

/-- Characters treated as whitespace by str.strip and the regex \s used in
the sources (ASCII whitespace plus the no-break space U+00A0). -/
def wsChar (c : Char) : Bool :=
  c.toNat = 32 || c.toNat = 9 || c.toNat = 10 || c.toNat = 13 ||
  c.toNat = 11 || c.toNat = 12 || c.toNat = 160

def dropWS : List Char → List Char
  | [] => []
  | c :: cs => if wsChar c then dropWS cs else c :: cs

/-- Python str.strip(): remove leading and trailing whitespace. -/
def pyStrip (s : String) : String :=
  ⟨((dropWS ((dropWS s.data).reverse)).reverse)⟩

/-- Python str.rstrip(): remove trailing whitespace only. -/
def pyRstrip (cs : List Char) : List Char :=
  (dropWS cs.reverse).reverse

def collapseGo : Bool → List Char → List Char
  | _, [] => []
  | inRun, c :: cs =>
    if wsChar c then
      (if inRun then collapseGo true cs else ' ' :: collapseGo true cs)
    else c :: collapseGo false cs

/-- Model of re.sub(r"\s+", " ", s): collapse each whitespace run to one space. -/
def collapseWS (cs : List Char) : List Char := collapseGo false cs

/-- The _clean helper shared by generate_deck.py and roadmap_html.py:
collapse whitespace runs to single spaces, strip, and (in generate_deck.py)
replace NBSP by space -- the NBSP replacement is subsumed because NBSP is in
the \s class collapsed by the first step. -/
def cleanS (s : String) : String :=
  ⟨(dropWS ((dropWS (collapseWS s.data)).reverse)).reverse⟩

def lowerChar (c : Char) : Char :=
  if 65 ≤ c.toNat ∧ c.toNat ≤ 90 then Char.ofNat (c.toNat + 32) else c

/-- Python str.lower(), modelled on the ASCII letters. -/
def lowerS (s : String) : String := ⟨s.data.map lowerChar⟩

def leadEq : List Char → List Char → Bool
  | [], _ => true
  | _ :: _, [] => false
  | a :: as, b :: bs => a = b && leadEq as bs

def subList (needle : List Char) : List Char → Bool
  | [] => needle.isEmpty
  | c :: rest => leadEq needle (c :: rest) || subList needle rest

/-- Python substring containment: needle in hay. -/
def containsSub (needle hay : String) : Bool := subList needle.data hay.data

/-- Python sep.join(parts). -/
def joinWith (sep : String) : List String → String
  | [] => ""
  | [s] => s
  | s :: rest => s ++ sep ++ joinWith sep rest

/-- Python "a or b" on strings: empty strings are falsy. -/
def pyOrS (a b : String) : String := if a = "" then b else a

/-- The clamp helper of generate_deck.py: length-limit a string, replacing the
tail with a single ellipsis character when it is too long. -/
def clamp (s : String) (maxLen : Nat) : String :=
  if s.data.length ≤ maxLen then s
  else ⟨pyRstrip (s.data.take (maxLen - 1)) ++ ['…']⟩

def isDigitC (c : Char) : Bool := 48 ≤ c.toNat && c.toNat ≤ 57

/-- Word characters for the regex word boundary \b (ASCII model of \w). -/
def wordChar (c : Char) : Bool :=
  isDigitC c || (65 ≤ c.toNat && c.toNat ≤ 90) ||
  (97 ≤ c.toNat && c.toNat ≤ 122) || c.toNat = 95

def digitsLead : List Char → List Char
  | [] => []
  | c :: cs => if isDigitC c then c :: digitsLead cs else []

def afterRun : List Char → List Char
  | [] => []
  | c :: cs => if isDigitC c then afterRun cs else c :: cs

def boundaryOK : List Char → Bool
  | [] => true
  | c :: _ => !wordChar c

def fidScan (prev : Option Char) : List Char → Option (List Char)
  | [] => none
  | c :: cs =>
    if isDigitC c && (match prev with | none => true | some p => !wordChar p) then
      (if (c :: digitsLead cs).length ≥ 3 && boundaryOK (afterRun cs) then
        some (c :: digitsLead cs)
      else fidScan (some c) cs)
    else fidScan (some c) cs

/-- Model of _FEATURE_ID_PAT.search: first maximal digit run of length at
least 3 delimited by word boundaries, as matched by \b(\d{3,})\b. -/
def featureIdSearch (s : String) : Option String :=
  (fidScan none s.data).map (fun l => ⟨l⟩)

def urlFidGo : List Char → Option (List Char)
  | [] => none
  | c :: cs =>
    if c = '?' || c = '&' || c = '#' then
      (if leadEq ['f','e','a','t','u','r','e','i','d','='] cs then
        (if (digitsLead (cs.drop 10)).length ≥ 3 && boundaryOK (afterRun (cs.drop 10)) then
          some (digitsLead (cs.drop 10))
        else urlFidGo cs)
      else urlFidGo cs)
    else urlFidGo cs

/-- Model of re.search for the case-insensitive pattern
featureid digits after a question mark, ampersand or hash, as in the card
fallback of roadmap_html.py. -/
def urlFeatureId (url : String) : Option String :=
  (urlFidGo (lowerS url).data).map (fun l => ⟨l⟩)

/- ===== Geometry / unit helpers (generate_deck.py) ===== -/

/-- Python round() on a rational (round half to even, as CPython does). -/
def pyRound (q : ℚ) : ℤ :=
  let fl := q.floor
  let fr := q - (fl : ℚ)
  if fr < 1/2 then fl
  else if (1/2 : ℚ) < fr then fl + 1
  else if fl % 2 = 0 then fl else fl + 1

/-- emu_to_inches of generate_deck.py: EMU to inches, None to 0.0. -/
def emu_to_inches (x : Option ℚ) : ℚ :=
  match x with
  | none => 0
  | some v => v / 914400

/-- inches_to_emu of generate_deck.py: inches to EMU, None to 0. -/
def inches_to_emu (x : Option ℚ) : ℤ :=
  match x with
  | none => 0
  | some v => pyRound (v * 914400)

/-- The helper named underscore-inches in generate_deck.py (lines 178-180).
Its body is: return _inches(0.0 if x is None else float(x)) -- it calls
ITSELF, not pptx Inches, so every call recurses forever.  We model it with
explicit fuel; returning none means the recursion consumed all fuel without
ever producing a value. -/
def inchesFuel : Nat → Option ℚ → Option ℤ
  | 0, _ => none
  | n + 1, x => inchesFuel n (some (match x with | none => 0 | some v => v))

/-- Python "x or d" for optional floats: None and 0.0 are falsy. -/
def pyOrFloat (x : Option ℚ) (d : ℚ) : ℚ :=
  match x with
  | none => d
  | some v => if v = 0 then d else v

/-- The rail geometry computed by add_item_slide (generate_deck.py lines
926-949): rail_left = float(rail_left_in or 0.0);
rail_width = max(0.5, float(rail_width_in or 3.5));
rail_left = max(0.0, min(rail_left, max(0.0, sw_in - rail_width))).
Returns (rail_left, rail_width) as drawn. -/
def railMetrics (rail_left_in rail_width_in : Option ℚ) (sw_in : ℚ) : ℚ × ℚ :=
  (max 0 (min (pyOrFloat rail_left_in 0) (max 0 (sw_in - max (1/2) (pyOrFloat rail_width_in (7/2))))),
   max (1/2) (pyOrFloat rail_width_in (7/2)))

/- ===== Item data model (generate_deck.py dataclass Item) ===== -/

structure Item where
  title : String
  summary : String
  description : String
  roadmap_id : String
  url : String
  month : String
  product : String
  products : List String
  platforms : List String
  audience : List String
  clouds : List String
  status : String
  phases : String
  created : String
  modified : String
  ga : String
deriving DecidableEq

/-- The all-defaults Item, matching the dataclass field defaults. -/
def baseItem : Item :=
  { title := "", summary := "", description := "", roadmap_id := "", url := "",
    month := "", product := "", products := [], platforms := [], audience := [],
    clouds := [], status := "", phases := "", created := "", modified := "", ga := "" }

/-- PHASE_TO_STATUS_MAP of generate_deck.py, in source (dict insertion) order. -/
def PHASE_TO_STATUS_MAP : List (String × String) :=
  [("in development", "In development"),
   ("rolling out", "Rolling out"),
   ("launched", "Launched"),
   ("preview", "Preview"),
   ("cancelled", "Cancelled"),
   ("delayed", "Delayed")]

/-- map_phase_to_status of generate_deck.py: first map key contained in the
cleaned lower-cased phase text wins; otherwise the cleaned text passes
through. -/
def map_phase_to_status (phase_text : String) : String :=
  match PHASE_TO_STATUS_MAP.find? (fun kv => containsSub kv.1 (lowerS (cleanS phase_text))) with
  | some kv => kv.2
  | none => cleanS phase_text

/-- normalize_item of generate_deck.py (lines 521-548). -/
def normalize_item (i : Item) (month_fallback : String) : Item :=
  { i with
    title := clamp (cleanS i.title) 140,
    summary := cleanS i.summary,
    description := cleanS i.description,
    roadmap_id := cleanS i.roadmap_id,
    url := cleanS i.url,
    month := if cleanS i.month = "" then cleanS month_fallback else i.month,
    status := if cleanS i.status = "" ∧ cleanS i.phases ≠ "" then map_phase_to_status i.phases else i.status,
    products :=
      if cleanS i.product ≠ "" ∧ cleanS (joinWith " " i.products) = "" then [i.product]
      else if cleanS i.product ≠ "" ∧ i.product ∉ i.products then i.product :: i.products
      else i.products,
    audience := i.audience.filter (fun a => cleanS a ≠ ""),
    platforms := i.platforms.filter (fun p => cleanS p ≠ ""),
    clouds := i.clouds.filter (fun c => cleanS c ≠ "") }

/- ===== Deduplication and ordering (build, generate_deck.py lines 1092-1104) ===== -/

/-- The deduplication key computed inside _dedup_keep_order:
(it.roadmap_id or it.title or it.url or "").lower().strip(). -/
def dedupKey (it : Item) : String :=
  pyStrip (lowerS (pyOrS it.roadmap_id (pyOrS it.title it.url)))

def dedupGo : List Item → List String → List Item
  | [], _ => []
  | it :: rest, seen =>
    if dedupKey it = "" ∨ dedupKey it ∈ seen then dedupGo rest seen
    else it :: dedupGo rest (dedupKey it :: seen)

/-- _dedup_keep_order of generate_deck.py: first occurrence of each non-empty
key wins, empty keys are dropped, order is preserved. -/
def dedup_keep_order (xs : List Item) : List Item := dedupGo xs []

/-- The first component of the Python sort key (i.products or "", i.title or ""):
either the products list itself or the empty string -- two different Python
runtime types. -/
inductive PyVal where
  | lst (xs : List String)
  | str (s : String)
deriving DecidableEq

/-- Python list-of-strings lexicographic comparison. -/
def pyListLt : List String → List String → Bool
  | [], [] => false
  | [], _ :: _ => true
  | _ :: _, [] => false
  | a :: as, b :: bs => if a = b then pyListLt as bs else decide (a < b)

/-- Python comparison of the heterogeneous first key components: comparing a
list with a str raises TypeError. -/
def pyLtVal : PyVal → PyVal → Except String Bool
  | PyVal.lst a, PyVal.lst b => Except.ok (pyListLt a b)
  | PyVal.str a, PyVal.str b => Except.ok (decide (a < b))
  | _, _ => Except.error "TypeError: unsupported comparison between list and str"

/-- The sort key lambda i: (i.products or "", i.title or "") from build. -/
def sortKey (it : Item) : PyVal × String :=
  ((if it.products = [] then PyVal.str "" else PyVal.lst it.products), pyOrS it.title "")

/-- Python tuple comparison of two sort keys: first components compared for
equality, then either the second components (str < str) or the possibly
raising heterogeneous comparison of the first components. -/
def pyLtKey (k1 k2 : PyVal × String) : Except String Bool :=
  if k1.1 = k2.1 then Except.ok (decide (k1.2 < k2.2)) else pyLtVal k1.1 k2.1

def itemLt (a b : Item) : Except String Bool := pyLtKey (sortKey a) (sortKey b)

def insertM (lt : Item → Item → Except String Bool) (x : Item) : List Item → Except String (List Item)
  | [] => Except.ok [x]
  | y :: ys =>
    match lt x y with
    | Except.error m => Except.error m
    | Except.ok true => Except.ok (x :: y :: ys)
    | Except.ok false =>
      match insertM lt x ys with
      | Except.error m => Except.error m
      | Except.ok r => Except.ok (y :: r)

/-- Stable sort in the exception monad, modelling list.sort with a key
function whose comparisons may raise (on a two-element list it performs the
single comparison CPython performs). -/
def sortM (lt : Item → Item → Except String Bool) (xs : List Item) : Except String (List Item) :=
  xs.foldlM (fun acc x => insertM lt x acc) []

/-- The dedupe-and-order step of build: _dedup_keep_order followed by
items.sort(key=lambda i: (i.products or "", i.title or "")). -/
def dedupeAndOrder (xs : List Item) : Except String (List Item) :=
  sortM itemLt (dedup_keep_order xs)

/- ===== Save-retry policy (_safe_save, generate_deck.py lines 389-402) ===== -/

/-- Outcome of one presentation.save call: success, PermissionError (the
only retried exception), or any other exception. -/
inductive SaveRes where
  | ok
  | permErr
  | err (msg : String)
deriving DecidableEq

def lastIdxGo (p : Char → Bool) : List Char → Nat → Option Nat → Option Nat
  | [], _, acc => acc
  | c :: cs, i, acc => lastIdxGo p cs (i + 1) (if p c then some i else acc)

def lastIdx (p : Char → Bool) (cs : List Char) : Option Nat := lastIdxGo p cs 0 none

/-- The split position used by os.path.splitext: the last dot of the base
name when some character before it in the base name is not itself a dot,
otherwise the full length (no extension). -/
def splitIdx (s : String) : Nat :=
  let fstart : Nat := match lastIdx (fun c => c = '/' || c = '\\') s.data with
    | none => 0
    | some n => n + 1
  match lastIdx (fun c => c = '.') s.data with
  | none => s.data.length
  | some d =>
    if fstart ≤ d ∧ ((s.data.drop fstart).take (d - fstart)).any (fun c => c ≠ '.') then d
    else s.data.length

/-- os.path.splitext: split off the extension at the last dot of the base
name, unless every character before it in the base name is itself a dot. -/
def splitext (s : String) : String × String :=
  (⟨s.data.take (splitIdx s)⟩, ⟨s.data.drop (splitIdx s)⟩)

/-- The file name tried on attempt i: the requested path on attempt 0,
otherwise base_timestamp_i concatenated with the extension, exactly as the
f-string in _safe_save builds it. -/
def saveCandidate (base ext p : String) (stamp : Nat → String) (i : Nat) : String :=
  if i = 0 then p else base ++ "_" ++ stamp i ++ "_" ++ toString i ++ ext

def saveLoop (σ : Nat → String → SaveRes) (stamp : Nat → String) (base ext p : String) :
    Nat → Nat → Except String (Option String)
  | _, 0 => Except.ok none
  | i, rem + 1 =>
    match σ i (saveCandidate base ext p stamp i) with
    | SaveRes.ok => Except.ok (some (saveCandidate base ext p stamp i))
    | SaveRes.permErr => saveLoop σ stamp base ext p (i + 1) rem
    | SaveRes.err m => Except.error m

/-- _safe_save of generate_deck.py.  The environment σ gives the outcome of
the save call made at global attempt index i on a given path (the file
system may change between attempts, hence the index).  After the
tries-iteration loop (attempt 0 on the requested path, attempts 1..tries-1
on suffixed paths, PermissionError swallowed, anything else propagated), the
source performs ONE MORE save on the original requested path, whose outcome
decides the call. -/
def safe_save (σ : Nat → String → SaveRes) (stamp : Nat → String)
    (output_path : String) (tries : Nat) : Except String String :=
  match saveLoop σ stamp (splitext output_path).1 (splitext output_path).2 output_path 0 tries with
  | Except.error m => Except.error m
  | Except.ok (some c) => Except.ok c
  | Except.ok none =>
    match σ tries output_path with
    | SaveRes.ok => Except.ok output_path
    | SaveRes.permErr => Except.error "PermissionError"
    | SaveRes.err m => Except.error m

/- ===== BeautifulSoup tree model ===== -/

/-- A parsed HTML node: a tag with a name, attributes and children, or a
text node.  bs4 multi-valued attributes (class lists) are modelled as their
space-joined string form, which is what every use in the sources reads. -/
inductive Html where
  | text (s : String)
  | tag (name : String) (attrs : List (String × String)) (children : List Html)

mutual

/-- All descendant text-node strings, in document order. -/
def Html.texts : Html → List String
  | .text s => [s]
  | .tag _ _ cs => Html.textsList cs

def Html.textsList : List Html → List String
  | [] => []
  | c :: cs => Html.texts c ++ Html.textsList cs

end

mutual

/-- All descendants (excluding the node itself), in document order, as bs4
.descendants / recursive find_all traverse them. -/
def Html.descendants : Html → List Html
  | .text _ => []
  | .tag _ _ cs => Html.descList cs

def Html.descList : List Html → List Html
  | [] => []
  | c :: cs => c :: (Html.descendants c ++ Html.descList cs)

end

/-- bs4 get_text(strip=True): each descendant string stripped, empties
dropped, and the rest concatenated.  Joining with the empty separator makes
dropping the empties immaterial, so we simply concatenate the stripped
strings.  On a text node this equals the stripped string itself, so it also
models the NavigableString branch of the _to_text helper. -/
def toText (h : Html) : String :=
  joinWith "" ((Html.texts h).map pyStrip)

/-- Attribute lookup on a tag; none for text nodes or absent attributes. -/
def attrGet (h : Html) (name : String) : Option String :=
  match h with
  | .text _ => none
  | .tag _ attrs _ => (attrs.find? (fun kv => kv.1 == name)).map (fun kv => kv.2)

/-- The _attr helper of roadmap_html.py: attribute as a cleaned string,
empty when absent. -/
def attrClean (h : Html) (name : String) : String :=
  match attrGet h name with
  | none => ""
  | some v => cleanS v

/-- A find/find_all query: an optional name filter (none matches any tag,
as name=True or name=None in bs4), the href=True flag, and an optional
predicate on the class attribute (given the attribute value, or none when
the attribute is absent, exactly as bs4 calls such a lambda). -/
structure Query where
  names : Option (List String)
  hrefTrue : Bool
  classPred : Option (Option String → Bool)

def matchesQ (q : Query) (h : Html) : Bool :=
  match h with
  | .text _ => false
  | .tag nm _ _ =>
    (match q.names with | none => true | some ns => ns.contains nm) &&
    (!q.hrefTrue || (attrGet h "href").isSome) &&
    (match q.classPred with | none => true | some p => p (attrGet h "class"))

/-- _safe_find_all: recursive find_all filtered to tags. -/
def findAllQ (h : Html) (q : Query) : List Html :=
  (Html.descendants h).filter (matchesQ q)

/-- _safe_find: the first recursive match, or none. -/
def findQ (h : Html) (q : Query) : Option Html :=
  (findAllQ h q).head?

/-- Query for a single tag name. -/
def tagQ (n : String) : Query := ⟨some [n], false, none⟩

/- ===== Roadmap parser (roadmap_html.py) ===== -/

/-- _HDR_ALIASES of roadmap_html.py, in dict insertion order; each set of
alias spellings is modelled as a list (only membership is used). -/
def HDR_ALIASES : List (String × List String) :=
  [("feature id", ["feature id", "featureid", "id", "roadmap id", "feature_id"]),
   ("title", ["title", "feature name", "feature title"]),
   ("description", ["description", "summary", "details"]),
   ("status", ["status", "release status"]),
   ("products", ["product", "products", "workload"]),
   ("platforms", ["platform", "platforms", "device"]),
   ("audience", ["audience"]),
   ("phase", ["phase", "release phase"]),
   ("clouds", ["cloud", "clouds"]),
   ("created", ["created", "date added"]),
   ("modified", ["modified", "last modified", "updated"]),
   ("ga", ["ga", "general availability", "release"]),
   ("url", ["more info", "learn more", "link", "url"])]

/-- _normalize_hdr: clean, lower-case, then map through the alias table. -/
def normalizeHdr (s : String) : String :=
  match HDR_ALIASES.find? (fun kv => kv.2.contains (lowerS (cleanS s))) with
  | some kv => kv.1
  | none => lowerS (cleanS s)

/-- _find_table_candidates: every table whose normalized th texts, joined
with spaces, contain "feature id", "title" or "description". -/
def findTableCandidates (soup : Html) : List Html :=
  (findAllQ soup (tagQ "table")).filter (fun t =>
    containsSub "feature id" (joinWith " " ((findAllQ t (tagQ "th")).map (fun th => normalizeHdr (toText th)))) ||
    containsSub "title" (joinWith " " ((findAllQ t (tagQ "th")).map (fun th => normalizeHdr (toText th)))) ||
    containsSub "description" (joinWith " " ((findAllQ t (tagQ "th")).map (fun th => normalizeHdr (toText th)))))

def headerMapGo : List Html → Nat → List (String × Nat) → List (String × Nat)
  | [], _, acc => acc
  | th :: rest, idx, acc =>
    headerMapGo rest (idx + 1)
      (if normalizeHdr (toText th) ≠ "" ∧ (acc.find? (fun kv => kv.1 == normalizeHdr (toText th))).isNone
       then acc ++ [(normalizeHdr (toText th), idx)] else acc)

/-- _header_map: normalized header name to column index, first occurrence
wins; falls back to the th/td cells of the first tr when the table has no
th at all. -/
def headerMap (table : Html) : List (String × Nat) :=
  headerMapGo
    (if (findAllQ table (tagQ "th")).isEmpty then
      (match (findAllQ table (tagQ "tr")).head? with
       | some head_tr => findAllQ head_tr ⟨some ["th", "td"], false, none⟩
       | none => [])
     else findAllQ table (tagQ "th"))
    0 []

/-- hdrs.get(name, -1) followed by the index-validity check, as an Option. -/
def hdrGet (hdrs : List (String × Nat)) (name : String) : Option Nat :=
  (hdrs.find? (fun kv => kv.1 == name)).map (fun kv => kv.2)

/-- _cell_text: text of the i-th td, empty when out of range. -/
def cellText (tds : List Html) (i : Nat) : String :=
  match tds.get? i with
  | some td => toText td
  | none => ""

def rowGet (hdrs : List (String × Nat)) (tds : List Html) (name : String) : String :=
  match hdrGet hdrs name with
  | some idx => cellText tds idx
  | none => ""

/-- _first_link_href: cleaned href of the first descendant anchor carrying
an href attribute. -/
def firstLinkHref (node : Html) : String :=
  match findQ node ⟨some ["a"], true, none⟩ with
  | some a => attrClean a "href"
  | none => ""

/-- The raw per-record dictionary produced by the parsers (ItemDict in the
source): a key is present exactly when the parser stored a (non-empty)
value for it. -/
structure ItemDict where
  title : Option String
  summary : Option String
  roadmap_id : Option String
  url : Option String
  month : Option String
  status : Option String
  products : Option String
  platforms : Option String
  audience : Option String
  phases : Option String
  clouds : Option String
  created : Option String
  modified : Option String
  ga : Option String
deriving DecidableEq

def emptyDict : ItemDict :=
  ⟨none, none, none, none, none, none, none, none, none, none, none, none, none, none⟩

def setIfNE (v : Option String) (s : String) : Option String :=
  if s ≠ "" then some s else v

/-- One row of the table path of parse_roadmap_html: returns none when the
row has no td cells or when it yields neither a title nor a url (the row is
then not appended). -/
def rowRecord (month : String) (hdrs : List (String × Nat)) (tr : Html) : Option ItemDict :=
  let tds := findAllQ tr (tagQ "td")
  if tds.isEmpty then none
  else
    let rid0 := rowGet hdrs tds "feature id"
    let rid := if rid0 = "" then
        (match featureIdSearch (toText tr) with
         | some r => cleanS r
         | none => "")
      else rid0
    let title := pyOrS (rowGet hdrs tds "title") (cellText tds 0)
    let url0 := pyOrS (rowGet hdrs tds "url") (firstLinkHref tr)
    let url := if url0 = "" ∧ rid ≠ "" then
        "https://www.microsoft.com/microsoft-365/roadmap?featureid=" ++ rid
      else url0
    let d : ItemDict :=
      { emptyDict with
        title := setIfNE none title,
        summary := setIfNE none (rowGet hdrs tds "description"),
        roadmap_id := setIfNE none rid,
        url := setIfNE none url,
        month := setIfNE none month,
        status := setIfNE none (rowGet hdrs tds "status"),
        products := setIfNE none (rowGet hdrs tds "products"),
        platforms := setIfNE none (rowGet hdrs tds "platforms"),
        audience := setIfNE none (rowGet hdrs tds "audience"),
        phases := setIfNE none (rowGet hdrs tds "phase"),
        clouds := setIfNE none (rowGet hdrs tds "clouds"),
        created := setIfNE none (rowGet hdrs tds "created"),
        modified := setIfNE none (rowGet hdrs tds "modified"),
        ga := setIfNE none (rowGet hdrs tds "ga") }
    if d.title ≠ none ∨ d.url ≠ none then some d else none

/-- All accepted rows of one candidate table. -/
def tableRows (month : String) (hdrs : List (String × Nat)) (table : Html) : List ItemDict :=
  (findAllQ table (tagQ "tr")).filterMap (rowRecord month hdrs)

/-- The table loop of parse_roadmap_html: tables with an empty header map
are skipped; after processing a table, if the accumulated items list is
non-empty the function returns it immediately (some _); when the loop ends
with nothing accumulated the card fallback runs (none). -/
def tablePhase (month : String) : List Html → List ItemDict → Option (List ItemDict)
  | [], _ => none
  | t :: rest, acc =>
    if headerMap t = [] then tablePhase month rest acc
    else
      if acc ++ tableRows month (headerMap t) t = [] then
        tablePhase month rest (acc ++ tableRows month (headerMap t) t)
      else some (acc ++ tableRows month (headerMap t) t)

/-- The class heuristic of the card fallback: class attribute present,
truthy, and containing card, item, tile or ms- case-insensitively. -/
def cardClassPred (c : Option String) : Bool :=
  match c with
  | none => false
  | some s => s ≠ "" &&
      (containsSub "card" (lowerS s) || containsSub "item" (lowerS s) ||
       containsSub "tile" (lowerS s) || containsSub "ms-" (lowerS s))

def cardCandidates (soup : Html) : List Html :=
  findAllQ soup ⟨none, false, some cardClassPred⟩

/-- The class lambda for the card title element: "title" in str(c), not
lower-cased in the source. -/
def titleClassPred (c : Option String) : Bool :=
  match c with
  | none => false
  | some s => s ≠ "" && containsSub "title" s

/-- Earliest longest paragraph, as produced by the stable descending sort
on text length followed by taking the head. -/
def longestFirst (ps : List Html) : Option Html :=
  ps.foldl (fun best p =>
    match best with
    | none => some p
    | some b => if (toText b).data.length < (toText p).data.length then some p else best) none

/-- One card of the card fallback of parse_roadmap_html. -/
def cardRecord (month : String) (card : Html) : Option ItemDict :=
  let title_el :=
    match findQ card ⟨none, false, some titleClassPred⟩ with
    | some e => some e
    | none =>
      match findQ card ⟨some ["h1", "h2", "h3"], false, none⟩ with
      | some e => some e
      | none => findQ card (tagQ "a")
  let title := match title_el with | some e => toText e | none => toText card
  let url0 := firstLinkHref card
  let url := if url0 = "" then
      (match findQ card ⟨some ["a"], true, none⟩ with
       | some a0 => attrClean a0 "href"
       | none => "")
    else url0
  let rid0 := if url ≠ "" then
      (match urlFeatureId url with
       | some r => cleanS r
       | none => "")
    else ""
  let rid := if rid0 = "" then
      (match featureIdSearch (toText card) with
       | some r => cleanS r
       | none => "")
    else rid0
  let description :=
    match longestFirst ((findAllQ card ⟨some ["p", "div", "span"], false, none⟩).filter (fun p => toText p ≠ "")) with
    | some p => toText p
    | none => ""
  let d : ItemDict :=
    { emptyDict with
      title := setIfNE none title,
      summary := setIfNE none description,
      roadmap_id := setIfNE none rid,
      url := setIfNE none url,
      month := setIfNE none month }
  if d.title ≠ none ∨ d.url ≠ none then some d else none

def cardPhase (month : String) (soup : Html) : List ItemDict :=
  (cardCandidates soup).filterMap (cardRecord month)

/-- parse_roadmap_html on an already parsed tree: table path first, with its
early return as soon as a table produced accepted rows; card fallback only
when no table did. -/
def parse_roadmap_html (soup : Html) (month : String) : List ItemDict :=
  match tablePhase month (findTableCandidates soup) [] with
  | some its => its
  | none => cardPhase month soup

/-- parse_roadmap_html including the file-existence guard: env models the
file system as path to parsed tree; a missing or unreadable file yields []. -/
def parse_roadmap_file (env : String → Option Html) (path month : String) : List ItemDict :=
  match env path with
  | none => []
  | some soup => parse_roadmap_html soup month

/-- _to_item of generate_deck.py: dict to Item.  The scalar fields in the
explicit normalisation loops become "" when absent; the list-valued fields
become [] or a one-element list.  Python leaves description and product as
None (they are in no normalisation loop and the parsers never set them) and
wraps phases in a list; every consumer in scope treats those values exactly
like the empty defaults used here, which is noted rather than modelled. -/
def to_item (d : ItemDict) : Item :=
  { title := d.title.getD "",
    summary := d.summary.getD "",
    description := "",
    roadmap_id := d.roadmap_id.getD "",
    url := d.url.getD "",
    month := d.month.getD "",
    product := "",
    products := match d.products with | none => [] | some s => [s],
    platforms := match d.platforms with | none => [] | some s => [s],
    audience := match d.audience with | none => [] | some s => [s],
    clouds := match d.clouds with | none => [] | some s => [s],
    status := d.status.getD "",
    phases := d.phases.getD "",
    created := d.created.getD "",
    modified := d.modified.getD "",
    ga := d.ga.getD "" }

/- ===== Deck assembly (build, generate_deck.py lines 1061-1156) ===== -/

inductive SlideKind where
  | cover
  | agenda
  | separator (title : String)
  | item
  | conclusion
  | thankyou
deriving DecidableEq

structure Deck where
  slides : List SlideKind
deriving DecidableEq

/-- Python exceptions that the embedded pipeline can surface. -/
inductive PyErr where
  | nameError (n : String)
  | typeError (m : String)
  | recursionError
  | other (m : String)
deriving DecidableEq

/-- add_cover_slide of generate_deck.py (lines 730-758).  A blank slide is
appended, then: when a cover background image is present add_bg reaches
add_picture_safe, whose first statement calls the self-recursive helper
modelled by inchesFuel, so Python raises RecursionError; without a
background the next statement is the dates text box whose keyword argument
left_in=left reads the undefined local name left, so Python raises
NameError.  Either way the call never returns normally.  The asset Option
collapses path_if_exists: some means a path that exists. -/
def add_cover_slide (prs : Deck) (cover_bg : Option String) : Except PyErr Deck :=
  let _prs1 : Deck := ⟨prs.slides ++ [SlideKind.cover]⟩
  match cover_bg with
  | some _ => Except.error PyErr.recursionError
  | none => Except.error (PyErr.nameError "left")

/-- add_agenda_slide: appends a slide, then calls add_title_box, whose first
textbox dimension goes through the self-recursive inches helper -- always
RecursionError (with an existing background image it is raised even earlier
inside add_picture_safe). -/
def add_agenda_slide (prs : Deck) : Except PyErr Deck :=
  let _prs1 : Deck := ⟨prs.slides ++ [SlideKind.agenda]⟩
  Except.error PyErr.recursionError

/-- The two call sites of add_separator_slide inside build pass a keyword
argument subtitle that the function signature (prs, assets, title) does not
accept, so the call raises TypeError before the body runs. -/
def sepCallSubtitle (prs : Deck) (_title _subtitle : String) : Except PyErr Deck :=
  let _prs1 : Deck := prs
  Except.error (PyErr.typeError "add_separator_slide got an unexpected keyword argument subtitle")

/-- add_item_slide: uses pptx Inches directly (not the broken helper) and
guards its only risky drawing call, so it returns normally. -/
def add_item_slide (prs : Deck) : Deck :=
  ⟨prs.slides ++ [SlideKind.item]⟩

/-- add_conclusion_slide: like the agenda slide it draws a title box through
the self-recursive inches helper -- always RecursionError. -/
def add_conclusion_slide (prs : Deck) : Except PyErr Deck :=
  let _prs1 : Deck := ⟨prs.slides ++ [SlideKind.conclusion]⟩
  Except.error PyErr.recursionError

/-- add_thankyou_slide: appends the slide and draws only the optional
background; with an existing background image add_picture_safe hits the
self-recursive inches helper, otherwise the call succeeds. -/
def add_thankyou_slide (prs : Deck) (thankyou_bg : Option String) : Except PyErr Deck :=
  match thankyou_bg with
  | some _ => Except.error PyErr.recursionError
  | none => Except.ok ⟨prs.slides ++ [SlideKind.thankyou]⟩

/-- The asset dictionary handed to build; Option collapses path_if_exists
(some means the path exists). -/
structure Assets where
  cover : Option String
  agenda : Option String
  separator : Option String
  conclusion : Option String
  thankyou : Option String
  brand_bg : Option String
  cover_title : Option String
  cover_dates : Option String
  logo : Option String
  logo2 : Option String

/-- prod = (it.products[0] if it.products else "General").strip() or "General". -/
def primaryProduct (it : Item) : String :=
  pyOrS (pyStrip (match it.products.head? with | some x => x | none => "General")) "General"

/-- First-seen order of the product groups of build step 3. -/
def groupOrder : List Item → List String → List String
  | [], acc => acc
  | it :: rest, acc =>
    groupOrder rest (if acc.contains (primaryProduct it) then acc else acc ++ [primaryProduct it])

/-- The middle phase of build: with no items, one separator call for the
No updates found slide; otherwise a separator call per product group with
the item slides in between.  Every separator call site passes the
unsupported subtitle keyword, so the first call raises. -/
def emitMiddle (prs : Deck) (month : String) (items : List Item) : Except PyErr Deck :=
  if items.isEmpty then sepCallSubtitle prs "No updates found" month
  else
    match groupOrder items [] with
    | [] => Except.ok prs
    | g :: _ => sepCallSubtitle prs (g ++ " updates") month

/-- build of generate_deck.py (lines 1061-1156).  parseMC stands for the
out-of-scope message-center parser module; env models the file system for
the roadmap parser; σ and stamp drive the final save-retry.  The slide
sequence, aggregation, dedup, sort, grouping, emission and save follow the
source order. -/
def build (parseMC : String → String → List ItemDict) (env : String → Option Html)
    (inputs : List String) (output_path : String) (month : String) (assets : Assets)
    (σ : Nat → String → SaveRes) (stamp : Nat → String) : Except PyErr (Deck × String) := do
  let prs : Deck := ⟨[]⟩
  let prs ← add_cover_slide prs assets.cover
  let prs ← add_agenda_slide prs
  let dicts := inputs.flatMap (fun p =>
    if containsSub "messagecenter" (lowerS p) || containsSub "briefing" (lowerS p)
    then parseMC p month
    else parse_roadmap_file env p month)
  let items0 := dedup_keep_order (dicts.map to_item)
  let items ← (sortM itemLt items0).mapError PyErr.other
  let prs ← emitMiddle prs month items
  let prs ← add_conclusion_slide prs
  let prs ← add_thankyou_slide prs assets.thankyou
  let actual ← (safe_save σ stamp output_path 4).mapError PyErr.other
  pure (prs, actual)

/- ===== Concrete fixtures and oracles used by the claim theorems ===== -/

/-- Two raw Items carrying the same roadmap_id 5001, as in the cross-source
duplicate scenario. -/
def item5001A : Item :=
  { baseItem with roadmap_id := "5001", title := "From roadmap", url := "https://a.example/one" }

def item5001B : Item :=
  { baseItem with roadmap_id := "5001", title := "From message center", url := "https://b.example/two" }

/-- An Item whose dedup key is empty: whitespace-only roadmap_id, no title,
no url. -/
def wsItem : Item := { baseItem with roadmap_id := "  " }

/-- Items demonstrating the heterogeneous sort keys: one with a products
list, one without. -/
def c4itemA : Item := { baseItem with title := "a", products := ["Teams"] }

def c4itemB : Item := { baseItem with title := "b" }

/-- Counterexample Item for the product-at-index-0 claim: product present
but not in first position of products. -/
def c5item : Item := { baseItem with product := "Teams", products := ["Excel", "Teams"] }

/-- Witness Item: product set, products empty. -/
def c5w : Item := { baseItem with product := "Teams" }

/-- Save oracle: every attempt up to index 3 hits a PermissionError, any
later attempt succeeds (the lock is released just after the loop). -/
def sigmaLocked (i : Nat) (_p : String) : SaveRes :=
  if i ≤ 3 then SaveRes.permErr else SaveRes.ok

/-- Save oracle: the first attempt hits a PermissionError, every later
attempt succeeds. -/
def sigmaRetry1 (i : Nat) (_p : String) : SaveRes :=
  if i = 0 then SaveRes.permErr else SaveRes.ok

def stampC (_i : Nat) : String := "20250101_000000"

/-- Roadmap fixture for the table-precedence claim: one candidate table
with one accepted row, plus a card-like div. -/
def c6row : Html := .tag "tr" [] [.tag "td" [] [.text "Copilot update"]]

def c6table : Html :=
  .tag "table" []
    [.tag "tr" [] [.tag "th" [] [.text "Title"]],
     c6row]

def c6card : Html :=
  .tag "div" [("class", "card")]
    [.tag "a" [("href", "https://example.org/x")] [.text "Card thing"]]

def c6soup : Html := .tag "body" [] [c6table, c6card]

/-- Roadmap fixture for the id-recovery claim: a table with a Feature ID
and a Title column and two data rows; the second row has an empty id cell
and carries the id only inside the href of its link. -/
def c7row1 : Html :=
  .tag "tr" []
    [.tag "td" [] [.text "123456"],
     .tag "td" [] [.text "Alpha feature"]]

def c7row2 : Html :=
  .tag "tr" []
    [.tag "td" [] [.text " "],
     .tag "td" [] [.text "Beta feature"],
     .tag "td" []
       [.tag "a" [("href", "https://www.microsoft.com/microsoft-365-roadmap?featureid=482601")]
         [.text "Learn more"]]]

def c7table : Html :=
  .tag "table" []
    [.tag "tr" [] [.tag "th" [] [.text "Feature ID"], .tag "th" [] [.text "Title"]],
     c7row1, c7row2]

def c7soup : Html := .tag "body" [] [c7table]

/- ===== Helper lemmas ===== -/

theorem splitext_append (s : String) : (splitext s).1 ++ (splitext s).2 = s := by
  show String.mk (s.data.take (splitIdx s) ++ s.data.drop (splitIdx s)) = s
  rw [List.take_append_drop]

theorem candidate_ne (p : String) (stamp : Nat → String) (i : Nat) (h : i ≠ 0) :
    saveCandidate (splitext p).1 (splitext p).2 p stamp i ≠ p := by
  intro heq
  have hsplit : (splitext p).1.length + (splitext p).2.length = p.length := by
    rw [← String.length_append, splitext_append]
  rw [saveCandidate, if_neg h] at heq
  have hlen := congrArg String.length heq
  simp only [String.length_append] at hlen
  have h1 : String.length "_" = 1 := rfl
  rw [h1] at hlen
  omega

theorem dedupGo_sublist (xs : List Item) : ∀ seen, (dedupGo xs seen).Sublist xs := by
  induction xs with
  | nil => intro seen; simp [dedupGo]
  | cons it rest ih =>
    intro seen
    by_cases h : dedupKey it = "" ∨ dedupKey it ∈ seen
    · simp only [dedupGo, if_pos h]
      exact (ih seen).cons it
    · simp only [dedupGo, if_neg h]
      exact (ih _).cons₂ it

theorem dedupGo_key_prop (xs : List Item) :
    ∀ seen, ∀ y ∈ dedupGo xs seen, dedupKey y ≠ "" ∧ dedupKey y ∉ seen := by
  induction xs with
  | nil => intro seen y hy; simp [dedupGo] at hy
  | cons it rest ih =>
    intro seen y hy
    by_cases h : dedupKey it = "" ∨ dedupKey it ∈ seen
    · rw [dedupGo, if_pos h] at hy
      exact ih seen y hy
    · rw [dedupGo, if_neg h] at hy
      push_neg at h
      rcases List.mem_cons.mp hy with h1 | h2
      · subst h1; exact h
      · have h3 := ih _ y h2
        exact ⟨h3.1, fun hm => h3.2 (List.mem_cons_of_mem _ hm)⟩

theorem dedupGo_pairwise (xs : List Item) :
    ∀ seen, (dedupGo xs seen).Pairwise (fun a b => dedupKey a ≠ dedupKey b) := by
  induction xs with
  | nil => intro seen; simp [dedupGo]
  | cons it rest ih =>
    intro seen
    by_cases h : dedupKey it = "" ∨ dedupKey it ∈ seen
    · simp only [dedupGo, if_pos h]; exact ih seen
    · simp only [dedupGo, if_neg h]
      refine List.Pairwise.cons ?_ (ih _)
      intro y hy heq
      exact (dedupGo_key_prop rest _ y hy).2 (by rw [← heq]; exact List.mem_cons_self _ _)

theorem dedupGo_first_occ (xs : List Item) :
    ∀ seen x, x ∈ xs → dedupKey x ≠ "" → dedupKey x ∉ seen →
    ∃ y, xs.find? (fun z => dedupKey z == dedupKey x) = some y ∧ y ∈ dedupGo xs seen := by
  induction xs with
  | nil => intro seen x hx; simp at hx
  | cons it rest ih =>
    intro seen x hx hne hnotin
    by_cases hkey : dedupKey it = dedupKey x
    · refine ⟨it, ?_, ?_⟩
      · exact List.find?_cons_of_pos _ (by simp [hkey])
      · have hcond : ¬(dedupKey it = "" ∨ dedupKey it ∈ seen) := by
          push_neg
          exact ⟨hkey ▸ hne, hkey ▸ hnotin⟩
        rw [dedupGo, if_neg hcond]
        exact List.mem_cons_self _ _
    · have hx2 : x ∈ rest := by
        rcases List.mem_cons.mp hx with h1 | h2
        · exact absurd (h1 ▸ rfl : dedupKey it = dedupKey x) hkey
        · exact h2
      have hfind : (it :: rest).find? (fun z => dedupKey z == dedupKey x) =
          rest.find? (fun z => dedupKey z == dedupKey x) :=
        List.find?_cons_of_neg _ (by simp [hkey])
      by_cases hc : dedupKey it = "" ∨ dedupKey it ∈ seen
      · obtain ⟨y, hf, hy⟩ := ih seen x hx2 hne hnotin
        refine ⟨y, by rw [hfind]; exact hf, ?_⟩
        rw [dedupGo, if_pos hc]
        exact hy
      · obtain ⟨y, hf, hy⟩ := ih (dedupKey it :: seen) x hx2 hne (by
          intro hmem
          rcases List.mem_cons.mp hmem with h1 | h2
          · exact hkey h1.symm
          · exact hnotin h2)
        refine ⟨y, by rw [hfind]; exact hf, ?_⟩
        rw [dedupGo, if_neg hc]
        exact List.mem_cons_of_mem _ hy

theorem tablePhase_some (month : String) (l : List Html) : ∀ acc,
    (∃ t ∈ l, headerMap t ≠ [] ∧ tableRows month (headerMap t) t ≠ []) →
    ∃ its, tablePhase month l acc = some its := by
  induction l with
  | nil => intro acc h; obtain ⟨t, ht, _⟩ := h; simp at ht
  | cons t0 rest ih =>
    intro acc h
    by_cases hh : headerMap t0 = []
    · obtain ⟨t, ht, hhm, hrows⟩ := h
      have ht2 : t ∈ rest := by
        rcases List.mem_cons.mp ht with h1 | h2
        · subst h1; exact absurd hh hhm
        · exact h2
      obtain ⟨its, hits⟩ := ih acc ⟨t, ht2, hhm, hrows⟩
      exact ⟨its, by rw [tablePhase, if_pos hh]; exact hits⟩
    · by_cases he : acc ++ tableRows month (headerMap t0) t0 = []
      · obtain ⟨t, ht, hhm, hrows⟩ := h
        have ht2 : t ∈ rest := by
          rcases List.mem_cons.mp ht with h1 | h2
          · subst h1
            exact absurd (List.append_eq_nil.mp he).2 hrows
          · exact h2
        obtain ⟨its, hits⟩ := ih _ ⟨t, ht2, hhm, hrows⟩
        exact ⟨its, by rw [tablePhase, if_neg hh, if_pos he]; exact hits⟩
      · exact ⟨_, by rw [tablePhase, if_neg hh, if_neg he]⟩

theorem tablePhase_mem (month : String) (l : List Html) : ∀ acc its,
    tablePhase month l acc = some its →
    ∀ d ∈ its, d ∈ acc ∨ ∃ t ∈ l, d ∈ tableRows month (headerMap t) t := by
  induction l with
  | nil => intro acc its h; simp [tablePhase] at h
  | cons t0 rest ih =>
    intro acc its h d hd
    by_cases hh : headerMap t0 = []
    · rw [tablePhase, if_pos hh] at h
      rcases ih acc its h d hd with h1 | ⟨t, ht, hm⟩
      · exact Or.inl h1
      · exact Or.inr ⟨t, List.mem_cons_of_mem _ ht, hm⟩
    · by_cases he : acc ++ tableRows month (headerMap t0) t0 = []
      · rw [tablePhase, if_neg hh, if_pos he] at h
        rcases ih _ its h d hd with h1 | ⟨t, ht, hm⟩
        · rcases List.mem_append.mp h1 with ha | hr
          · exact Or.inl ha
          · exact Or.inr ⟨t0, List.mem_cons_self _ _, hr⟩
        · exact Or.inr ⟨t, List.mem_cons_of_mem _ ht, hm⟩
      · rw [tablePhase, if_neg hh, if_neg he] at h
        injection h with h
        subst h
        rcases List.mem_append.mp hd with ha | hr
        · exact Or.inl ha
        · exact Or.inr ⟨t0, List.mem_cons_self _ _, hr⟩

/- ===== Claim theorems ===== -/

/-- C1: the claim states that build with zero normalized Items terminates
without raising and appends exactly the five fixed slides.  In the code,
build can never return normally for ANY input: add_cover_slide either hits
the unconditionally self-recursive inches helper (when a cover background
image exists) or reads the undefined local name left, so every invocation
of build -- in particular one whose inputs yield an empty Item list --
raises instead of producing a deck. -/
theorem C1_build_always_raises (parseMC : String → String → List ItemDict)
    (env : String → Option Html) (inputs : List String) (output_path month : String)
    (assets : Assets) (σ : Nat → String → SaveRes) (stamp : Nat → String) :
    build parseMC env inputs output_path month assets σ stamp =
      Except.error (match assets.cover with
        | some _ => PyErr.recursionError
        | none => PyErr.nameError "left") := by
  cases h : assets.cover <;>
    simp [build, add_cover_slide, h, Bind.bind, Except.bind]

/-- C2 counterexample: an environment in which the requested path and all
three suffixed retry paths fail with PermissionError, yet safe_save
succeeds -- returning the ORIGINAL unsuffixed path -- because the source
makes one further attempt on the original path after the loop.  Under the
claim, exhausting all four attempts should propagate the final exception,
and a successful retry should yield a suffixed path distinct from the
requested one; both parts fail here. -/
theorem C2_counterexample :
    sigmaLocked 0 "out.pptx" = SaveRes.permErr ∧
    sigmaLocked 1 (saveCandidate (splitext "out.pptx").1 (splitext "out.pptx").2 "out.pptx" stampC 1) = SaveRes.permErr ∧
    sigmaLocked 2 (saveCandidate (splitext "out.pptx").1 (splitext "out.pptx").2 "out.pptx" stampC 2) = SaveRes.permErr ∧
    sigmaLocked 3 (saveCandidate (splitext "out.pptx").1 (splitext "out.pptx").2 "out.pptx" stampC 3) = SaveRes.permErr ∧
    safe_save sigmaLocked stampC "out.pptx" 4 = Except.ok "out.pptx" :=
  ⟨rfl, rfl, rfl, rfl, rfl⟩

/-- C2 (amended): safe_save first attempts the requested path and returns it
on immediate success; a successful suffixed retry (attempts 1..3, after
permission failures on all earlier attempts) returns the suffixed path,
which is always distinct from the requested one; and when the requested
path and all three suffixed retries fail with permission errors, ONE MORE
attempt is made on the original unsuffixed path, whose outcome decides the
call: success returns the original path, and only this final attempt has
an exception that propagates. -/
theorem C2_safe_save_policy (σ : Nat → String → SaveRes) (stamp : Nat → String) (p : String) :
    (σ 0 p = SaveRes.ok → safe_save σ stamp p 4 = Except.ok p) ∧
    (∀ i, 1 ≤ i → i ≤ 3 →
      (∀ j, j < i → σ j (saveCandidate (splitext p).1 (splitext p).2 p stamp j) = SaveRes.permErr) →
      σ i (saveCandidate (splitext p).1 (splitext p).2 p stamp i) = SaveRes.ok →
      safe_save σ stamp p 4 = Except.ok (saveCandidate (splitext p).1 (splitext p).2 p stamp i) ∧
        saveCandidate (splitext p).1 (splitext p).2 p stamp i ≠ p) ∧
    ((∀ j, j ≤ 3 → σ j (saveCandidate (splitext p).1 (splitext p).2 p stamp j) = SaveRes.permErr) →
      safe_save σ stamp p 4 =
        (match σ 4 p with
         | SaveRes.ok => Except.ok p
         | SaveRes.permErr => Except.error "PermissionError"
         | SaveRes.err m => Except.error m)) := by
  have hc0 : saveCandidate (splitext p).1 (splitext p).2 p stamp 0 = p := rfl
  refine ⟨?_, ?_, ?_⟩
  · intro h0
    simp only [safe_save, saveLoop, hc0, h0]
  · intro i h1 h3 hprev hok
    refine ⟨?_, candidate_ne p stamp i (by omega)⟩
    interval_cases i
    · have hp0 := hprev 0 (by omega)
      simp only [safe_save, saveLoop, hp0, hok]
    · have hp0 := hprev 0 (by omega)
      have hp1 := hprev 1 (by omega)
      simp only [safe_save, saveLoop, hp0, hp1, hok]
    · have hp0 := hprev 0 (by omega)
      have hp1 := hprev 1 (by omega)
      have hp2 := hprev 2 (by omega)
      simp only [safe_save, saveLoop, hp0, hp1, hp2, hok]
  · intro hall
    have hp0 := hall 0 (by omega)
    have hp1 := hall 1 (by omega)
    have hp2 := hall 2 (by omega)
    have hp3 := hall 3 (by omega)
    simp only [safe_save, saveLoop, hp0, hp1, hp2, hp3]

/-- C2 witness: under an oracle whose first attempt hits a PermissionError
and whose later attempts succeed, the first suffixed retry wins and the
returned path differs from the requested one. -/
theorem C2_safe_save_policy_witness :
    safe_save sigmaRetry1 stampC "out.pptx" 4 =
      Except.ok (saveCandidate (splitext "out.pptx").1 (splitext "out.pptx").2 "out.pptx" stampC 1) ∧
    saveCandidate (splitext "out.pptx").1 (splitext "out.pptx").2 "out.pptx" stampC 1 ≠ "out.pptx" :=
  (C2_safe_save_policy sigmaRetry1 stampC "out.pptx").2.1 1 (by decide) (by decide)
    (fun j hj => by
      have hj0 : j = 0 := Nat.lt_one_iff.mp hj
      subst hj0
      rfl)
    rfl

/-- C3: deduplication keys each Item by the lowercased stripped value of
(roadmap_id or title or url); among the survivors order is preserved (the
output is a sublist of the input), any two distinct survivors have distinct
keys, for every input Item with a non-empty key the FIRST input occurrence
of that key is a survivor, and two records with the identical roadmap_id
5001 collapse to exactly the first one. -/
theorem C3_dedup_spec (xs : List Item) :
    (dedup_keep_order xs).Sublist xs ∧
    (dedup_keep_order xs).Pairwise (fun a b => dedupKey a ≠ dedupKey b) ∧
    (∀ x ∈ xs, dedupKey x ≠ "" →
      ∃ y, xs.find? (fun z => dedupKey z == dedupKey x) = some y ∧ y ∈ dedup_keep_order xs) ∧
    dedup_keep_order [item5001A, item5001B] = [item5001A] := by
  refine ⟨dedupGo_sublist xs [], dedupGo_pairwise xs [], ?_, by decide⟩
  intro x hx hne
  exact dedupGo_first_occ xs [] x hx hne (by simp)

/-- C3 witness: in the two-record roadmap_id 5001 scenario the first record
is found as the first occurrence of its key and survives deduplication. -/
theorem C3_dedup_spec_witness :
    ∃ y, ([item5001A, item5001B].find? (fun z => dedupKey z == dedupKey item5001A) = some y ∧
      y ∈ dedup_keep_order [item5001A, item5001B]) :=
  (C3_dedup_spec [item5001A, item5001B]).2.2.1 item5001A (List.mem_cons_self _ _) (by decide)

/-- C4: the claim states dedupeAndOrder never raises.  The sort key
(i.products or "", i.title or "") mixes a Python list with a Python string,
and CPython raises TypeError when list.sort compares the two: with one
deduplicated Item whose products is non-empty and one whose products is
empty, the single comparison the sort performs raises, so the combined
dedupe-and-order step raises for this two-element input. -/
theorem C4_dedupe_and_order_raises :
    dedupeAndOrder [c4itemA, c4itemB] =
      Except.error "TypeError: unsupported comparison between list and str" ∧
    c4itemA.products = ["Teams"] ∧ c4itemB.products = [] :=
  ⟨rfl, rfl, rfl⟩

/-- C5 counterexample: an Item whose product Teams already occurs in
products but not in first position is left unchanged by normalize_item, so
the normalized Item has a non-empty product that does NOT sit at index 0 of
products. -/
theorem C5_counterexample :
    c5item.product = "Teams" ∧
    (normalize_item c5item "").product = "Teams" ∧
    (normalize_item c5item "").products = ["Excel", "Teams"] ∧
    (normalize_item c5item "").products.head? ≠ some "Teams" := by
  refine ⟨rfl, rfl, by decide, by decide⟩

/-- C5 (amended): after normalize_item, a whitespace-cleaned non-empty
product is always a MEMBER of products, and it is placed at index 0
whenever it was not already present in products beforehand. -/
theorem C5_product_in_products (i : Item) (m : String) (h : cleanS i.product ≠ "") :
    i.product ∈ (normalize_item i m).products ∧
    (i.product ∉ i.products → (normalize_item i m).products.head? = some i.product) := by
  have hp : (normalize_item i m).products =
      (if cleanS i.product ≠ "" ∧ cleanS (joinWith " " i.products) = "" then [i.product]
       else if cleanS i.product ≠ "" ∧ i.product ∉ i.products then i.product :: i.products
       else i.products) := rfl
  by_cases h1 : cleanS (joinWith " " i.products) = ""
  · rw [hp, if_pos ⟨h, h1⟩]
    exact ⟨List.mem_singleton.mpr rfl, fun _ => rfl⟩
  · have hcond1 : ¬(cleanS i.product ≠ "" ∧ cleanS (joinWith " " i.products) = "") :=
      fun hc => h1 hc.2
    by_cases h2 : i.product ∈ i.products
    · have hcond2 : ¬(cleanS i.product ≠ "" ∧ i.product ∉ i.products) := fun hc => hc.2 h2
      rw [hp, if_neg hcond1, if_neg hcond2]
      exact ⟨h2, fun hn => absurd h2 hn⟩
    · rw [hp, if_neg hcond1, if_pos ⟨h, h2⟩]
      exact ⟨List.mem_cons_self _ _, fun _ => rfl⟩

/-- C5 witness: for an Item with product Teams and empty products, the
normalized products list contains Teams and starts with it. -/
theorem C5_product_in_products_witness :
    "Teams" ∈ (normalize_item c5w "").products ∧
      (normalize_item c5w "").products.head? = some "Teams" := by
  have h := C5_product_in_products c5w "" (by decide)
  exact ⟨h.1, h.2 (by decide)⟩

/-- C6: when some candidate table yields at least one accepted row (and the
document also contains card-like elements), parse_roadmap_html returns
exactly the items of the table phase -- every returned record comes from
the rows of a candidate table, and the card fallback contributes nothing. -/
theorem C6_table_precedence (soup : Html) (month : String)
    (htab : ∃ t ∈ findTableCandidates soup, headerMap t ≠ [] ∧ tableRows month (headerMap t) t ≠ [])
    (_hcards : cardCandidates soup ≠ []) :
    ∃ its, tablePhase month (findTableCandidates soup) [] = some its ∧
      parse_roadmap_html soup month = its ∧
      ∀ d ∈ its, ∃ t ∈ findTableCandidates soup, d ∈ tableRows month (headerMap t) t := by
  obtain ⟨its, hits⟩ := tablePhase_some month (findTableCandidates soup) [] htab
  refine ⟨its, hits, ?_, ?_⟩
  · rw [parse_roadmap_html, hits]
  · intro d hd
    rcases tablePhase_mem month _ [] its hits d hd with h1 | h2
    · simp at h1
    · exact h2

/-- C6 witness: a fixture with one productive candidate table and one
card-like div: the parse result is the table-phase result and every record
stems from a candidate table. -/
theorem C6_table_precedence_witness :
    ∃ its, tablePhase "September 2025" (findTableCandidates c6soup) [] = some its ∧
      parse_roadmap_html c6soup "September 2025" = its ∧
      ∀ d ∈ its, ∃ t ∈ findTableCandidates c6soup, d ∈ tableRows "September 2025" (headerMap t) t :=
  C6_table_precedence c6soup "September 2025"
    ⟨c6table, List.mem_cons_self _ _, by decide, by decide⟩
    (List.cons_ne_nil _ _)

/-- C7 counterexample: for the two-row fixture whose second row carries
featureid 482601 only inside its link href, parsing plus normalization
yields two Items whose roadmap_ids are 123456 and EMPTY -- not 482601 as
the claim states, because the table path recovers missing ids only from
the visible row text, never from the URL. -/
theorem C7_counterexample :
    (parse_roadmap_html c7soup "September 2025").map (fun d => (to_item d).roadmap_id) =
      ["123456", ""] ∧
    ("" : String) ≠ "482601" := by
  refine ⟨by decide, by decide⟩

/-- C7 (amended): for that fixture the parser yields two Items; the second
has an EMPTY roadmap_id but its url is exactly the link href that contains
featureid 482601 (the id is present in the href, as the card-fallback URL
pattern would confirm, yet the table path does not consult the URL). -/
theorem C7_url_kept_id_not_recovered :
    (parse_roadmap_html c7soup "September 2025").map
        (fun d => ((to_item d).roadmap_id, (to_item d).url)) =
      [("123456", "https://www.microsoft.com/microsoft-365/roadmap?featureid=123456"),
       ("", "https://www.microsoft.com/microsoft-365-roadmap?featureid=482601")] ∧
    urlFeatureId "https://www.microsoft.com/microsoft-365-roadmap?featureid=482601" = some "482601" := by
  refine ⟨by decide, by decide⟩

/-- C8: the claim says all three unit helpers are total and terminating.
emu_to_inches and inches_to_emu are (None maps to zero, otherwise scale by
914400, with rounding on the way to EMU), but the third helper is an
unconditional self-recursion that never returns a value for ANY input --
modelled by fuel, it yields none however much fuel it is given. -/
theorem C8_unit_helpers :
    (∀ fuel x, inchesFuel fuel x = none) ∧
    emu_to_inches none = 0 ∧ inches_to_emu none = 0 ∧
    (∀ q, emu_to_inches (some q) = q / 914400) ∧
    (∀ q, inches_to_emu (some q) = pyRound (q * 914400)) := by
  refine ⟨?_, rfl, rfl, fun q => rfl, fun q => rfl⟩
  intro fuel
  induction fuel with
  | zero => intro x; rfl
  | succ n ih => intro x; exact ih _

/-- C9 counterexample: with a requested rail width of 100 inches on a
13.33-inch slide, add_item_slide draws a rail 100 inches wide -- the code
clamps only the LEFT offset, never the width, so the drawn width exceeds
the slide width. -/
theorem C9_counterexample :
    (railMetrics (some (7/2)) (some 100) (40/3)).2 = 100 ∧
    ¬((railMetrics (some (7/2)) (some 100) (40/3)).2 ≤ 40/3) := by
  constructor
  · norm_num [railMetrics, pyOrFloat]
  · norm_num [railMetrics, pyOrFloat]

/-- C9 (amended): the rail always starts at a nonnegative left offset, its
width is clamped only from below (at half an inch), and its right edge
never exceeds the larger of the slide width and the rail width itself --
so the rail stays inside the slide exactly when the (unclamped) width fits,
while an oversized requested width is drawn in full. -/
theorem C9_rail_clamp (l w : Option ℚ) (sw : ℚ) :
    0 ≤ (railMetrics l w sw).1 ∧
    (1/2 : ℚ) ≤ (railMetrics l w sw).2 ∧
    (railMetrics l w sw).1 + (railMetrics l w sw).2 ≤ max sw ((railMetrics l w sw).2) := by
  refine ⟨le_max_left _ _, le_max_left _ _, ?_⟩
  have hL : (railMetrics l w sw).1 ≤ max 0 (sw - (railMetrics l w sw).2) :=
    max_le (le_max_left _ _) (le_trans (min_le_right _ _) (le_refl _))
  calc (railMetrics l w sw).1 + (railMetrics l w sw).2
      ≤ max 0 (sw - (railMetrics l w sw).2) + (railMetrics l w sw).2 :=
        add_le_add_right hL _
    _ = max (0 + (railMetrics l w sw).2) (sw - (railMetrics l w sw).2 + (railMetrics l w sw).2) := by
        rw [max_add_add_right]
    _ = max ((railMetrics l w sw).2) sw := by rw [zero_add, sub_add_cancel]
    _ = max sw ((railMetrics l w sw).2) := max_comm _ _

/-- C10: every Item surviving _dedup_keep_order has a non-empty dedup key,
and any Item whose key is empty (for instance a whitespace-only roadmap_id
with no title and no url) is silently dropped and never reaches the slide
builders. -/
theorem C10_empty_key_dropped (xs : List Item) :
    (∀ it ∈ dedup_keep_order xs, dedupKey it ≠ "") ∧
    (∀ it, dedupKey it = "" → it ∉ dedup_keep_order xs) := by
  constructor
  · intro it hit
    exact (dedupGo_key_prop xs [] it hit).1
  · intro it hk hmem
    exact (dedupGo_key_prop xs [] it hmem).1 hk

/-- C10 witness: the Item whose roadmap_id is whitespace-only (and whose
title and url are empty) is dropped even from a singleton input list. -/
theorem C10_empty_key_dropped_witness : wsItem ∉ dedup_keep_order [wsItem] :=
  (C10_empty_key_dropped [wsItem]).2 wsItem (by decide)
